import Mathlib

/-!
Verification development for the order / pricing / settlement core of the
peptide storefront (src/app.py).  Python floats are modelled as exact
rationals, SQL timestamps as integers, SQL NULL as Option, and the relevant
tables of the database as functions from primary key to row (users,
products, orders) or as lists (discount codes, returns, ledger rows).
Python truthiness on nullable numeric columns is modelled explicitly
(None and 0 are falsy).  Fallible endpoints are embedded as functions into
Except String; an error result means no row was written, matching the
source, which returns before any write in every error path modelled here.
-/

namespace PeptideApp

/-- Row of the products table (columns used by the pricing logic). -/
structure Product where
  id : ℕ
  price_single : ℚ
  price_bulk : Option ℚ
  bulk_quantity : ℤ
  stock : ℤ
  active : Bool
  sale_price : Option ℚ
  sale_start : Option ℤ
  sale_end : Option ℤ
  sale_min_qty : Option ℤ
deriving DecidableEq

/-- Row of the discount_codes table. -/
structure DiscountCode where
  id : ℕ
  code : String
  discount_percent : ℚ
  discount_amount : ℚ
  min_order_amount : ℚ
  usage_limit : Option ℕ
  times_used : ℕ
  active : Bool
  expires_at : Option ℤ
  referrer_user_id : Option ℕ
  commission_percent : Option ℚ
deriving DecidableEq

/-- One line of the items array of a create-order request. -/
structure CartItem where
  product_id : ℕ
  quantity : ℤ
deriving DecidableEq

/-- Row of the order_items table as written by create_order. -/
structure OrderItem where
  product_id : ℕ
  quantity : ℤ
  unit_price : ℚ
  is_bulk : Bool
deriving DecidableEq

/-- Row of the orders table (financial columns and status). -/
structure Order where
  user_id : ℕ
  subtotal : ℚ
  discount_amount : ℚ
  discount_code_id : Option ℕ
  shipping_cost : ℚ
  delivery_method : String
  credit_applied : ℚ
  total : ℚ
  status : String
  created_at : ℤ
deriving DecidableEq

/-- Row of the referral_transactions ledger table. -/
structure LedgerEntry where
  user_id : ℕ
  ltype : String
  amount : ℚ
deriving DecidableEq

/-- Row of the returns table. -/
structure Ret where
  id : ℕ
  order_id : ℕ
  user_id : ℕ
  status : String
  resolution_type : Option String
  resolution_amount : ℚ
deriving DecidableEq

/-- The relational state touched by the settlement, credit and returns code.
users is reduced to its referral_credit column, keyed by user id. -/
structure DB where
  products : ℕ → Option Product
  discount_codes : List DiscountCode
  balances : ℕ → Option ℚ
  ledger : List LedgerEntry
  orders : ℕ → Option Order
  returns : List Ret

/-- Python truthiness of a nullable float column: None and 0 are falsy. -/
def truthyQ : Option ℚ → Bool
  | none => false
  | some x => decide (x ≠ 0)

/-- Python truthiness of a nullable integer foreign key: None and 0 are falsy
(app.py line 1595, if discount row referrer_user_id is truthy). -/
def truthyRef : Option ℕ → Option ℕ
  | none => none
  | some r => if r = 0 then none else some r

/-- app.py line 1539: sale_min_qty or 1 (NULL or 0 falls back to 1). -/
def saleMinQty (p : Product) : ℤ :=
  match p.sale_min_qty with
  | none => 1
  | some m => if m = 0 then 1 else m

/-- app.py lines 1537-1558: a product line is on sale when sale_price is set
and positive, the quantity reaches sale_min_qty, and now lies in the
inclusive sale window, either bound being unbounded when NULL. -/
def saleActive (p : Product) (qty : ℤ) (now : ℤ) : Bool :=
  match p.sale_price with
  | none => false
  | some sp =>
    decide (0 < sp) && decide (saleMinQty p ≤ qty) &&
    (match p.sale_start with | none => true | some s0 => decide (s0 ≤ now)) &&
    (match p.sale_end with | none => true | some e0 => decide (now ≤ e0))

/-- Price basis of a resolved cart line. -/
inductive PriceBasis | sale | bulk | single
deriving DecidableEq

/-- app.py lines 1560-1574: unit price resolution, sale first, then bulk
(price_bulk truthy and qty at least bulk_quantity, price_bulk being the
bundle price so the unit price is price_bulk / bulk_quantity), then single.
Division is exact rational division; a bulk_quantity of 0 would raise in the
source and is outside the behaviour claimed here. -/
def resolveUnitPrice (p : Product) (qty : ℤ) (now : ℤ) : ℚ × PriceBasis :=
  if saleActive p qty now then (p.sale_price.getD 0, .sale)
  else if truthyQ p.price_bulk && decide (p.bulk_quantity ≤ qty) then
    (p.price_bulk.getD 0 / (p.bulk_quantity : ℚ), .bulk)
  else (p.price_single, .single)

/-- app.py line 1526: SELECT * FROM products WHERE id=? AND active=1. -/
def lookupActive (ps : ℕ → Option Product) (pid : ℕ) : Option Product :=
  match ps pid with
  | some p => if p.active then some p else none
  | none => none

/-- app.py lines 1525-1577: the per-line loop of create_order.  Rejects on a
missing or inactive product and on insufficient stock, otherwise accumulates
the subtotal and the order_items rows with the frozen unit price. -/
def priceItems (ps : ℕ → Option Product) (now : ℤ) :
    List CartItem → Except String (ℚ × List OrderItem)
  | [] => .ok (0, [])
  | it :: rest =>
    match lookupActive ps it.product_id with
    | none => .error "Product not found"
    | some p =>
      if p.stock < it.quantity then .error "Insufficient stock"
      else
        match priceItems ps now rest with
        | .error e => .error e
        | .ok (st, its) =>
          let pr := resolveUnitPrice p it.quantity now
          .ok (pr.1 * (it.quantity : ℚ) + st,
               ⟨it.product_id, it.quantity, pr.1, pr.2 == PriceBasis.bulk⟩ :: its)

/-- app.py lines 1587-1589: SELECT on discount_codes with code match, active,
not expired (expires_at NULL or strictly in the future) and usage not
exhausted (usage_limit NULL or times_used below it). -/
def findValidCode (codes : List DiscountCode) (s : String) (now : ℤ) :
    Option DiscountCode :=
  codes.find? (fun d => d.code == s.toUpper && d.active &&
    (match d.expires_at with | none => true | some e => decide (now < e)) &&
    (match d.usage_limit with | none => true | some l => decide (d.times_used < l)))

/-- app.py line 1597: commission_percent or 20 (NULL or 0 falls back to 20). -/
def commissionOr20 : Option ℚ → ℚ
  | none => 20
  | some c => if c = 0 then 20 else c

/-- Outcome of the discount phase of create_order. -/
structure DiscountResolution where
  amount : ℚ
  code_id : Option ℕ
  referrer : Option ℕ
  commission : ℚ
  is_own : Bool
deriving DecidableEq

/-- Discount phase outcome when no code applies. -/
def noDiscount : DiscountResolution := ⟨0, none, none, 20, false⟩

/-- app.py lines 1600-1607: the settled discount amount, computed over the
full order subtotal.  Own code with the combined choice gets
discount_percent plus commission_percent of subtotal; otherwise percent of
subtotal when discount_percent is positive, else the flat discount_amount. -/
def settleDiscountAmount (d : DiscountCode) (subtotal : ℚ) (isOwn : Bool)
    (choice : String) (commission : ℚ) : ℚ :=
  if isOwn && choice == "combined" then
    subtotal * ((d.discount_percent + commission) / 100)
  else if 0 < d.discount_percent then subtotal * (d.discount_percent / 100)
  else d.discount_amount

/-- app.py lines 1579-1607: discount resolution inside create_order.  A
missing, empty, invalid or below-minimum code silently yields noDiscount. -/
def resolveDiscount (codes : List DiscountCode) (code? : Option String)
    (subtotal : ℚ) (uid : ℕ) (choice : String) (now : ℤ) : DiscountResolution :=
  match code? with
  | none => noDiscount
  | some s =>
    if s = "" then noDiscount
    else
      match findValidCode codes s now with
      | none => noDiscount
      | some d =>
        if subtotal < d.min_order_amount then noDiscount
        else
          match truthyRef d.referrer_user_id with
          | some r =>
            let commission := commissionOr20 d.commission_percent
            let isOwn := r == uid
            ⟨settleDiscountAmount d subtotal isOwn choice commission,
             some d.id, some r, commission, isOwn⟩
          | none =>
            ⟨settleDiscountAmount d subtotal false choice 20,
             some d.id, none, 20, false⟩

/-- Fields of a create-order request that the settlement logic reads. -/
structure OrderRequest where
  final_attestation : Bool
  items : List CartItem
  discount_code : Option String
  referrer_choice : String
  delivery_method : String
  apply_credit : Bool
  user_id : ℕ

/-- app.py line 1611: flat 20 shipping for ship, 0 otherwise. -/
def shippingOf (m : String) : ℚ := if m = "ship" then 20 else 0

/-- app.py lines 1613-1621: credit application.  When requested and the
available balance is positive, the applied credit is the minimum of the
balance and subtotal minus discount plus shipping (no lower clamp). -/
def settledCredit (db : DB) (req : OrderRequest) (st D S : ℚ) : ℚ :=
  if req.apply_credit then
    let available := (db.balances req.user_id).getD 0
    if 0 < available then min available (st - D + S) else 0
  else 0

/-- app.py lines 1623-1625: clamp the total at zero. -/
def clamp0 (t : ℚ) : ℚ := if t < 0 then 0 else t

/-- UPDATE users SET referral_credit = referral_credit + delta WHERE id=uid. -/
def updBal (bal : ℕ → Option ℚ) (uid : ℕ) (delta : ℚ) : ℕ → Option ℚ :=
  fun u => if u = uid then (bal u).map (· + delta) else bal u

/-- app.py lines 1637-1641: debit the applied credit, only when positive,
writing the matching used ledger row in the same transaction. -/
def debitStep (bal : ℕ → Option ℚ) (led : List LedgerEntry) (uid : ℕ)
    (credit : ℚ) : (ℕ → Option ℚ) × List LedgerEntry :=
  if 0 < credit then (updBal bal uid (-credit), led ++ [⟨uid, "used", -credit⟩])
  else (bal, led)

/-- app.py lines 1646-1660: referral commission.  A foreign referrer is
credited commission_percent of subtotal as earned; the owner using their own
code is credited the same only under the split choice, which is also the
credit_earned reported in the response. -/
def earnStep (bal : ℕ → Option ℚ) (led : List LedgerEntry)
    (dres : DiscountResolution) (uid : ℕ) (choice : String) (st : ℚ) :
    (ℕ → Option ℚ) × List LedgerEntry × ℚ :=
  match dres.referrer with
  | some r =>
    if r ≠ uid then
      (updBal bal r (st * (dres.commission / 100)),
       led ++ [⟨r, "earned", st * (dres.commission / 100)⟩], 0)
    else if dres.is_own && choice == "split" then
      (updBal bal r (st * (dres.commission / 100)),
       led ++ [⟨r, "earned", st * (dres.commission / 100)⟩],
       st * (dres.commission / 100))
    else (bal, led, 0)
  | none => (bal, led, 0)

/-- app.py line 1592: increment times_used of the applied code. -/
def bumpUsage (codes : List DiscountCode) : Option ℕ → List DiscountCode
  | some did => codes.map (fun d =>
      if d.id = did then { d with times_used := d.times_used + 1 } else d)
  | none => codes

/-- app.py line 1635: per-line stock decrement. -/
def decStocks (ps : ℕ → Option Product) (items : List OrderItem) :
    ℕ → Option Product :=
  items.foldl (fun acc it => fun pid =>
    if pid = it.product_id then
      (acc pid).map (fun p => { p with stock := p.stock - it.quantity })
    else acc pid) ps

/-- The discount resolution create_order performs for a given request. -/
def settledDiscount (db : DB) (req : OrderRequest) (st : ℚ) (now : ℤ) :
    DiscountResolution :=
  resolveDiscount db.discount_codes req.discount_code st req.user_id
    req.referrer_choice now

/-- Everything create_order persists and reports on success.  The status
column of the inserted order row is the schema default, the INSERT at
app.py line 1628 naming no status column; the response at line 1671 reports
its own literal status string. -/
structure SettleResult where
  order : Order
  items : List OrderItem
  db : DB
  response_discount : ℚ
  response_credit_earned : ℚ
  response_status : String

/-- app.py lines 1579-1671: the settlement tail of create_order, after the
per-line pricing loop has produced the subtotal and the order_items rows. -/
def settle (db : DB) (req : OrderRequest) (now : ℤ) (st : ℚ)
    (items : List OrderItem) : SettleResult :=
  let dres := settledDiscount db req st now
  let S := shippingOf req.delivery_method
  let C := settledCredit db req st dres.amount S
  let o : Order :=
    ⟨req.user_id, st, dres.amount, dres.code_id, S, req.delivery_method, C,
     clamp0 (st - dres.amount + S - C), "pending", now⟩
  let dl := debitStep db.balances db.ledger req.user_id C
  let el := earnStep dl.1 dl.2 dres req.user_id req.referrer_choice st
  ⟨o, items,
   { db with products := decStocks db.products items,
             discount_codes := bumpUsage db.discount_codes dres.code_id,
             balances := el.1, ledger := el.2.1 },
   dres.amount, el.2.2, "pending_payment"⟩

/-- app.py lines 1509-1671: create_order.  Rejects a missing attestation and
an empty cart, then prices every line (rejecting on product or stock
failure) and settles. -/
def createOrder (db : DB) (req : OrderRequest) (now : ℤ) :
    Except String SettleResult :=
  if req.final_attestation = false then .error "Attestation required"
  else if req.items.isEmpty then .error "No items"
  else
    match priceItems db.products now req.items with
    | .error e => .error e
    | .ok (st, its) => .ok (settle db req now st its)

/-- app.py lines 1410-1452 (validate_discount): the discountable subtotal of
the preview endpoint, excluding line values currently priced via the sale
basis; with no cart information it falls back to the full subtotal.  The
product lookup there has no active filter. -/
def nonSaleSubtotal (ps : ℕ → Option Product) (now : ℤ) (cart : List CartItem)
    (subtotal : ℚ) : ℚ :=
  if cart.isEmpty then subtotal
  else cart.foldl (fun acc it =>
    match ps it.product_id with
    | none => acc
    | some p =>
      if saleActive p it.quantity now then acc
      else if truthyQ p.price_bulk && decide (p.bulk_quantity ≤ it.quantity) then
        acc + (p.price_bulk.getD 0 / (p.bulk_quantity : ℚ)) * (it.quantity : ℚ)
      else acc + p.price_single * (it.quantity : ℚ)) 0

/-- Fields of an admin order-edit request (app.py admin_edit_order); an
Option field is none when the key is absent, and for discount_code also when
it is present but empty, which the source treats alike. -/
structure EditRequest where
  discount_code : Option String
  manual_discount : Option ℚ
  shipping_cost : Option ℚ

/-- The financial columns admin_edit_order writes back. -/
structure EditResult where
  discount_code_id : Option ℕ
  discount_amount : ℚ
  shipping_cost : ℚ
  total : ℚ
deriving DecidableEq

/-- app.py lines 2556-2650 (admin_edit_order): re-apply a discount code
(looked up only for existence and active), or override the discount amount,
or the shipping cost, then recompute the total with the zero clamp.  An
unknown or inactive code rejects the edit. -/
def adminEditOrder (codes : List DiscountCode) (o : Order) (e : EditRequest) :
    Except String EditResult :=
  let resolved : Except String (Option ℕ × ℚ) :=
    match e.discount_code with
    | some s =>
      match codes.find? (fun d => d.code == s.toUpper.trim && d.active) with
      | some d =>
        .ok (some d.id,
             if 0 < d.discount_percent then o.subtotal * (d.discount_percent / 100)
             else d.discount_amount)
      | none => .error "Discount code not found or inactive"
    | none =>
      match e.manual_discount with
      | some m => .ok (o.discount_code_id, m)
      | none => .ok (o.discount_code_id, o.discount_amount)
  match resolved with
  | .error err => .error err
  | .ok (cid, nd) =>
    let ns := match e.shipping_cost with | some v => v | none => o.shipping_cost
    .ok ⟨cid, nd, ns, clamp0 (o.subtotal - nd + ns - o.credit_applied)⟩

/-- Fields of a return submission request (app.py submit_return_request);
items reduced to the selected order_item ids. -/
structure ReturnReq where
  order_id : ℕ
  user_id : ℕ
  reason : String
  items : List ℕ

/-- app.py lines 2900-2977 (submit_return_request): reject a falsy order id
or reason or an empty item list, require the order to belong to the caller
with status fulfilled, delivered or shipped, and reject when a pending
return already exists on the order; otherwise insert a pending return row.
The source performs no order-age check here. -/
def submitReturnRequest (db : DB) (rq : ReturnReq) (newId : ℕ) :
    Except String DB :=
  if rq.order_id = 0 || rq.reason == "" then .error "Order and reason are required"
  else if rq.items.isEmpty then .error "Please select at least one item"
  else
    match db.orders rq.order_id with
    | none => .error "Order not found or not eligible for return"
    | some o =>
      if o.user_id == rq.user_id &&
         (o.status == "fulfilled" || o.status == "delivered" || o.status == "shipped") then
        if db.returns.any (fun r => r.order_id == rq.order_id && r.status == "pending") then
          .error "A return request is already pending for this order"
        else
          .ok { db with returns :=
                  db.returns ++ [⟨newId, rq.order_id, rq.user_id, "pending", none, 0⟩] }
      else .error "Order not found or not eligible for return"

/-- The acceptance condition of submitReturnRequest, stated directly. -/
def returnEligible (db : DB) (rq : ReturnReq) : Bool :=
  decide (rq.order_id ≠ 0) && !(rq.reason == "") && !rq.items.isEmpty &&
  (match db.orders rq.order_id with
   | some o => o.user_id == rq.user_id &&
       (o.status == "fulfilled" || o.status == "delivered" || o.status == "shipped")
   | none => false) &&
  !(db.returns.any (fun r => r.order_id == rq.order_id && r.status == "pending"))

/-- SELECT * FROM returns WHERE id=rid. -/
def findRet (rs : List Ret) (rid : ℕ) : Option Ret :=
  rs.find? (fun r => r.id == rid)

/-- app.py lines 3150-3235 (admin_process_return): reject an empty resolution
type, a non-positive amount for the credit resolutions, a missing return and
a return whose status is no longer pending; otherwise move the status to
denied, approved (crediting the user and writing a credit ledger row for the
credit resolutions, and also for an unrecognised resolution type, which the
source defaults to approved with no money movement), refund_pending or
replacement_pending. -/
def adminProcessReturn (db : DB) (rid : ℕ) (rtype : String) (ramount : ℚ) :
    Except String DB :=
  if rtype == "" then .error "Resolution type is required"
  else if (rtype == "store_credit" || rtype == "partial_credit") && decide (ramount ≤ 0) then
    .error "Credit amount must be greater than 0"
  else
    match findRet db.returns rid with
    | none => .error "Return not found"
    | some ret =>
      if ret.status ≠ "pending" then .error "Return has already been processed"
      else
        let newStatus :=
          if rtype == "denied" then "denied"
          else if rtype == "store_credit" || rtype == "partial_credit" then "approved"
          else if rtype == "full_refund" then "refund_pending"
          else if rtype == "replacement" then "replacement_pending"
          else "approved"
        let moneyMoved := rtype == "store_credit" || rtype == "partial_credit"
        let bal := if moneyMoved then updBal db.balances ret.user_id ramount else db.balances
        let led := if moneyMoved then db.ledger ++ [⟨ret.user_id, "credit", ramount⟩] else db.ledger
        .ok { db with
                balances := bal,
                ledger := led,
                returns := db.returns.map (fun r =>
                  if r.id = rid then
                    { r with
                      status := newStatus,
                      resolution_type := some rtype,
                      resolution_amount := ramount }
                  else r) }

/-- app.py lines 3238-3266 (admin_complete_refund): only a return currently
in refund_pending may be marked refunded. -/
def adminCompleteRefund (db : DB) (rid : ℕ) : Except String DB :=
  match findRet db.returns rid with
  | none => .error "Return not found"
  | some ret =>
    if ret.status ≠ "refund_pending" then .error "Return is not pending refund"
    else
      .ok { db with returns := db.returns.map (fun r =>
              if r.id = rid then { r with status := "refunded" } else r) }

/-- app.py lines 3269-3311 (admin_add_credit): a non-zero amount is added to
the balance of an existing user together with an adjustment ledger row in
the same transaction. -/
def adminAddCredit (db : DB) (uid : ℕ) (amount : ℚ) : Except String DB :=
  if amount = 0 then .error "Amount cannot be zero"
  else
    match db.balances uid with
    | none => .error "User not found"
    | some _ =>
      .ok { db with
              balances := updBal db.balances uid amount,
              ledger := db.ledger ++ [⟨uid, "adjustment", amount⟩] }

/-- app.py lines 2748-2790 (admin_update_user): the cached referral_credit is
overwritten with the submitted value (or kept when absent); no ledger row is
written. -/
def adminUpdateUser (db : DB) (uid : ℕ) (newCredit : Option ℚ) :
    Except String DB :=
  match db.balances uid with
  | none => .error "User not found"
  | some old =>
    .ok { db with balances := fun u =>
            if u = uid then some (newCredit.getD old) else db.balances u }

/-- Signed sum of the ledger rows of one user. -/
def ledgerSum (l : List LedgerEntry) (uid : ℕ) : ℚ :=
  ((l.filter (fun e => e.user_id == uid)).map LedgerEntry.amount).sum

/-- The cached-balance invariant over a balances map and a ledger. -/
def invP (bal : ℕ → Option ℚ) (led : List LedgerEntry) : Prop :=
  ∀ uid b, bal uid = some b → b = ledgerSum led uid

/-- Spec section 3: every cached User.referral_credit equals the signed sum
of that user's referral_transactions rows. -/
def ledgerInv (db : DB) : Prop := invP db.balances db.ledger

/-- The earned rows of a ledger. -/
def earnedEntries (l : List LedgerEntry) : List LedgerEntry :=
  l.filter (fun e => e.ltype == "earned")

/-! ## Fixtures used by witnesses and counterexamples -/

/-- Plain product, unit price 100. -/
def prodSimple : Product := ⟨1, 100, none, 10, 100, true, none, none, none, none⟩

/-- Product on an unbounded sale at 80, regular price 100. -/
def prodSale : Product := ⟨2, 100, none, 10, 100, true, some 80, none, none, none⟩

/-- Plain product, unit price 50. -/
def prodCheap : Product := ⟨3, 50, none, 10, 100, true, none, none, none, none⟩

/-- Plain product, unit price 40. -/
def prodForty : Product := ⟨4, 40, none, 10, 100, true, none, none, none, none⟩

/-- Ten percent discount code with no restrictions. -/
def codeSave10 : DiscountCode := ⟨1, "SAVE10", 10, 0, 0, none, 0, true, none, none, none⟩

/-- Flat 100 discount code with no minimum. -/
def codeFlat100 : DiscountCode := ⟨2, "BIG", 0, 100, 0, none, 0, true, none, none, none⟩

/-- Referral code of user 7: ten percent discount, twenty percent commission. -/
def codeRef : DiscountCode := ⟨3, "REF", 10, 0, 0, none, 0, true, none, some 7, some 20⟩

/-- Catalog lookup over the four fixture products. -/
def exProducts : ℕ → Option Product := fun pid =>
  if pid = 1 then some prodSimple
  else if pid = 2 then some prodSale
  else if pid = 3 then some prodCheap
  else if pid = 4 then some prodForty
  else none

/-- Main fixture database: user 7 holds 10 of credit, user 8 holds 15. -/
def exDb : DB :=
  ⟨exProducts, [codeSave10, codeFlat100, codeRef],
   fun u => if u = 7 then some 10 else if u = 8 then some 15 else none,
   [], fun _ => none, []⟩

/-- Plain order of one unit of product 1, no code, pickup, no credit. -/
def exReq1 : OrderRequest := ⟨true, [⟨1, 1⟩], none, "split", "pickup", false, 7⟩

/-- Sale-priced cart with the ten percent code. -/
def exReq2 : OrderRequest := ⟨true, [⟨2, 1⟩], some "SAVE10", "split", "pickup", false, 7⟩

/-- Own referral code used with the combined choice. -/
def exReq4c : OrderRequest := ⟨true, [⟨1, 1⟩], some "REF", "combined", "pickup", false, 7⟩

/-- Own referral code used with the split choice. -/
def exReq4s : OrderRequest := ⟨true, [⟨1, 1⟩], some "REF", "split", "pickup", false, 7⟩

/-- Cart worth 50 with the flat 100 code and credit application requested. -/
def exReq5 : OrderRequest := ⟨true, [⟨3, 1⟩], some "BIG", "split", "pickup", true, 7⟩

/-- Spec section 8 scenario: balance 15, subtotal 40, pickup, credit applied. -/
def exReq5w : OrderRequest := ⟨true, [⟨4, 1⟩], none, "split", "pickup", true, 8⟩

/-- Cart with a code string that matches no discount row. -/
def exReq10 : OrderRequest := ⟨true, [⟨1, 1⟩], some "NOPE", "split", "pickup", false, 7⟩

/-! ## Helper lemmas -/

/-- The zero clamp of the source is the max-with-zero of the spec. -/
theorem clamp0_eq_max (t : ℚ) : clamp0 t = max 0 t := by
  unfold clamp0
  rw [max_def]
  split_ifs <;> linarith

/-- Inversion of a successful create_order call. -/
theorem createOrder_inv {db : DB} {req : OrderRequest} {now : ℤ}
    {res : SettleResult} (h : createOrder db req now = .ok res) :
    ∃ st its, priceItems db.products now req.items = .ok (st, its) ∧
      res = settle db req now st its := by
  unfold createOrder at h
  split at h
  · cases h
  · split at h
    · cases h
    · split at h
      · cases h
      · rename_i st its heq
        injection h with h
        exact ⟨st, its, heq, h.symm⟩

/-- A create_order call with attestation, a non-empty cart and a successful
pricing loop commits the settlement. -/
theorem createOrder_ok {db : DB} {req : OrderRequest} {now : ℤ} {st : ℚ}
    {its : List OrderItem}
    (hA : req.final_attestation = true) (hNE : req.items ≠ [])
    (hP : priceItems db.products now req.items = .ok (st, its)) :
    createOrder db req now = .ok (settle db req now st its) := by
  have hE : req.items.isEmpty = false := by
    cases hI : req.items with
    | nil => exact absurd hI hNE
    | cons a l => rfl
  unfold createOrder
  rw [hA, hE, hP]
  rfl

/-- The subtotal returned by the pricing loop is the sum of the persisted
line extensions (frozen unit price times quantity). -/
theorem priceItems_subtotal {ps : ℕ → Option Product} {now : ℤ} :
    ∀ {l : List CartItem} {st : ℚ} {its : List OrderItem},
      priceItems ps now l = .ok (st, its) →
      st = (its.map (fun it => it.unit_price * (it.quantity : ℚ))).sum := by
  intro l
  induction l with
  | nil =>
    intro st its h
    unfold priceItems at h
    injection h with h
    injection h with h1 h2
    subst h1
    subst h2
    simp
  | cons it rest ih =>
    intro st its h
    unfold priceItems at h
    split at h
    · cases h
    · split at h
      · cases h
      · split at h
        · cases h
        · rename_i st0 its0 heq
          injection h with h
          injection h with h1 h2
          subst h1
          subst h2
          simp [ih heq]

end PeptideApp

namespace PeptideApp

/-- Order row fixture for the admin-edit witness: subtotal 100, no credit. -/
def exOrderEdit : Order :=
  ⟨7, 100, 0, none, 0, "pickup", 0, 100, "pending", 0⟩

/-- Claim C1: for every order accepted by create_order the persisted total equals
max(0, subtotal - discount_amount + shipping_cost - credit_applied) over the
values stored on that same order row, and the admin order-edit recomputes
its total by the same formula over the stored subtotal and credit and the
edited discount and shipping. -/
theorem C1_total_formula :
    (∀ (db : DB) (req : OrderRequest) (now : ℤ) (res : SettleResult),
        createOrder db req now = .ok res →
        res.order.total = max 0 (res.order.subtotal - res.order.discount_amount +
          res.order.shipping_cost - res.order.credit_applied)) ∧
    (∀ (codes : List DiscountCode) (o : Order) (e : EditRequest) (r : EditResult),
        adminEditOrder codes o e = .ok r →
        r.total = max 0 (o.subtotal - r.discount_amount + r.shipping_cost -
          o.credit_applied)) := by
  constructor
  · intro db req now res h
    obtain ⟨st, its, hP, rfl⟩ := createOrder_inv h
    exact clamp0_eq_max _
  · intro codes o e r h
    cases hdc : e.discount_code with
    | some s =>
      cases hfind : codes.find? (fun d => d.code == s.toUpper.trim && d.active) with
      | some d =>
        simp only [adminEditOrder, hdc, hfind] at h
        injection h with h
        rw [← h]
        exact clamp0_eq_max _
      | none =>
        simp only [adminEditOrder, hdc, hfind] at h
        cases h
    | none =>
      cases hmd : e.manual_discount with
      | some m =>
        simp only [adminEditOrder, hdc, hmd] at h
        injection h with h
        rw [← h]
        exact clamp0_eq_max _
      | none =>
        simp only [adminEditOrder, hdc, hmd] at h
        injection h with h
        rw [← h]
        exact clamp0_eq_max _

/-- Witness for C1 at a concrete accepted order and a concrete admin edit. -/
theorem C1_total_formula_witness :
    ((settle exDb exReq1 0 100 [⟨1, 1, 100, false⟩]).order.total =
      max 0 ((settle exDb exReq1 0 100 [⟨1, 1, 100, false⟩]).order.subtotal -
        (settle exDb exReq1 0 100 [⟨1, 1, 100, false⟩]).order.discount_amount +
        (settle exDb exReq1 0 100 [⟨1, 1, 100, false⟩]).order.shipping_cost -
        (settle exDb exReq1 0 100 [⟨1, 1, 100, false⟩]).order.credit_applied)) ∧
    ((⟨none, 5, 20, 115⟩ : EditResult).total =
      max 0 (exOrderEdit.subtotal - (⟨none, 5, 20, 115⟩ : EditResult).discount_amount +
        (⟨none, 5, 20, 115⟩ : EditResult).shipping_cost - exOrderEdit.credit_applied)) := by
  constructor
  · exact C1_total_formula.1 exDb exReq1 0 _
      (createOrder_ok rfl (by decide) (by with_unfolding_all rfl))
  · exact C1_total_formula.2 [] exOrderEdit ⟨none, some 5, some 20⟩ _
      (by with_unfolding_all rfl)

end PeptideApp

namespace PeptideApp

/-- Claim C2 counterexample: the cart holds one sale-priced line worth 80, so the
claimed sale-excluding eligible subtotal of the preview logic is 0 and the
claimed settled percentage discount would be 0; create_order nevertheless
persists a discount of 8, ten percent of the full subtotal. -/
theorem C2_counterexample :
    (createOrder exDb exReq2 0).map (fun r => r.order.discount_amount) = .ok 8 ∧
    nonSaleSubtotal exDb.products 0 exReq2.items 80 * (10 / 100) = 0 ∧
    (8 : ℚ) ≠ 0 := by
  refine ⟨by with_unfolding_all rfl, by with_unfolding_all rfl, by norm_num⟩

/-- Claim C2 as amended: at settlement create_order computes the discount of a
valid non-referral code over the FULL subtotal, the sum of all persisted
line extensions including sale-priced ones: percentage of subtotal when
discount_percent is positive, otherwise the flat discount_amount with no
cap.  The sale-excluding eligible subtotal exists only in the
validate_discount preview (nonSaleSubtotal). -/
theorem C2_amended_settlement_discount
    {db : DB} {req : OrderRequest} {now : ℤ} {st : ℚ} {its : List OrderItem}
    {s : String} {d : DiscountCode}
    (hA : req.final_attestation = true) (hNE : req.items ≠ [])
    (hP : priceItems db.products now req.items = .ok (st, its))
    (hc : req.discount_code = some s) (hs : s ≠ "")
    (hf : findValidCode db.discount_codes s now = some d)
    (hmin : d.min_order_amount ≤ st)
    (hnr : d.referrer_user_id = none) :
    createOrder db req now = .ok (settle db req now st its) ∧
    (settle db req now st its).order.discount_amount =
      (if 0 < d.discount_percent then st * (d.discount_percent / 100)
       else d.discount_amount) ∧
    st = (its.map (fun it => it.unit_price * (it.quantity : ℚ))).sum := by
  refine ⟨createOrder_ok hA hNE hP, ?_, priceItems_subtotal hP⟩
  show (settledDiscount db req st now).amount = _
  simp only [settledDiscount, resolveDiscount, hc, if_neg hs, hf,
    if_neg (not_lt.mpr hmin), hnr, truthyRef, settleDiscountAmount,
    Bool.false_and, Bool.false_eq_true, if_false]

/-- Witness for C2 as amended, at the sale cart plus ten percent code. -/
theorem C2_amended_witness :
    createOrder exDb exReq2 0 = .ok (settle exDb exReq2 0 80 [⟨2, 1, 80, false⟩]) ∧
    (settle exDb exReq2 0 80 [⟨2, 1, 80, false⟩]).order.discount_amount =
      (if (0 : ℚ) < 10 then (80 : ℚ) * (10 / 100) else 0) ∧
    (80 : ℚ) = ([(⟨2, 1, 80, false⟩ : OrderItem)].map
      (fun it => it.unit_price * (it.quantity : ℚ))).sum :=
  C2_amended_settlement_discount rfl (by decide) (by with_unfolding_all rfl)
    rfl (by decide) (by with_unfolding_all rfl) (by norm_num [codeSave10]) rfl

end PeptideApp

namespace PeptideApp

/-- The unit price exactly as the claim words it: sale handling as in the
source, but bulk applying whenever price_bulk is SET (non-NULL) and the
quantity reaches bulk_quantity. -/
def claimedUnitPrice (p : Product) (qty : ℤ) (now : ℤ) : ℚ :=
  if saleActive p qty now then p.sale_price.getD 0
  else if p.price_bulk.isSome && decide (p.bulk_quantity ≤ qty) then
    p.price_bulk.getD 0 / (p.bulk_quantity : ℚ)
  else p.price_single

/-- The claim as amended: bulk requires price_bulk set AND non-zero (Python
truthiness of the column); a NULL or zero sale_min_qty counts as 1. -/
def amendedUnitPrice (p : Product) (qty : ℤ) (now : ℤ) : ℚ :=
  if saleActive p qty now then p.sale_price.getD 0
  else
    match p.price_bulk with
    | some pb =>
      if pb ≠ 0 ∧ p.bulk_quantity ≤ qty then pb / (p.bulk_quantity : ℚ)
      else p.price_single
    | none => p.price_single

/-- Product stored with price_bulk 0: set, but falsy in the source. -/
def exBulkZero : Product := ⟨9, 5, some 0, 1, 100, true, none, none, none, none⟩

/-- Product with the bundle price 578 for 10 of the claim example. -/
def exBulk578 : Product := ⟨9, 60, some 578, 10, 100, true, none, none, none, none⟩

/-- Sale at 50 with minimum 5 inside an active window, and a bulk tier that
would also qualify at quantity 5. -/
def exSale50 : Product :=
  ⟨9, 60, some 100, 5, 100, true, some 50, some (-10), some 10, some 5⟩

/-- Claim C3 counterexample: with price_bulk stored as 0 (set, quantity met, no
sale) the source charges price_single 5, not the claimed 0 / bulk_quantity
= 0, because the bulk branch tests Python truthiness, not presence. -/
theorem C3_counterexample :
    (resolveUnitPrice exBulkZero 1 0).1 = 5 ∧
    claimedUnitPrice exBulkZero 1 0 = 0 ∧ (5 : ℚ) ≠ 0 := by
  refine ⟨by with_unfolding_all rfl, by with_unfolding_all rfl, by norm_num⟩

/-- Claim C3 as amended: unit price resolution is sale first (sale_price set and
positive, quantity at least sale_min_qty with NULL or 0 meaning 1, now in
the inclusive window with absent bounds unbounded), then bulk when
price_bulk is set and NON-ZERO and quantity reaches bulk_quantity, at unit
price price_bulk / bulk_quantity, else price_single; with the claimed
concrete cases 578/10, the 57.8 per-unit price at quantity 10, price_single
at quantity 9, and sale precedence over a qualifying bulk tier. -/
theorem C3_amended_pricing :
    (∀ (p : Product) (qty now : ℤ),
      (resolveUnitPrice p qty now).1 = amendedUnitPrice p qty now) ∧
    (resolveUnitPrice exBulk578 10 0).1 = 578 / 10 ∧
    (resolveUnitPrice exBulk578 9 0).1 = exBulk578.price_single ∧
    (resolveUnitPrice exSale50 5 0).1 = 50 ∧
    (resolveUnitPrice exSale50 5 0).2 = PriceBasis.sale := by
  refine ⟨?_, by with_unfolding_all rfl, by with_unfolding_all rfl,
    by with_unfolding_all rfl, by with_unfolding_all rfl⟩
  intro p qty now
  unfold resolveUnitPrice amendedUnitPrice
  cases hsp : saleActive p qty now
  · cases hpb : p.price_bulk with
    | none => simp [truthyQ]
    | some pb =>
      by_cases h1 : pb = 0
      · simp [truthyQ, h1]
      · by_cases h2 : p.bulk_quantity ≤ qty
        · simp [truthyQ, h1, h2]
        · simp [truthyQ, h1, h2]
  · simp

end PeptideApp

namespace PeptideApp

/-- Filtering earned rows distributes over append. -/
theorem earnedEntries_append (l1 l2 : List LedgerEntry) :
    earnedEntries (l1 ++ l2) = earnedEntries l1 ++ earnedEntries l2 := by
  simp [earnedEntries, List.filter_append]

/-- The credit debit writes only a used row, never an earned one. -/
theorem earnedEntries_debit (bal : ℕ → Option ℚ) (led : List LedgerEntry)
    (uid : ℕ) (c : ℚ) :
    earnedEntries (debitStep bal led uid c).2 = earnedEntries led := by
  by_cases h : 0 < c <;>
    simp [debitStep, h, earnedEntries_append, earnedEntries, List.filter]

/-- The discount stored by settle is the resolved discount amount. -/
theorem settle_discount_amount (db : DB) (req : OrderRequest) (now : ℤ)
    (st : ℚ) (its : List OrderItem) :
    (settle db req now st its).order.discount_amount =
      (settledDiscount db req st now).amount := rfl

/-- The reported credit_earned is the third component of the earn step. -/
theorem settle_credit_earned (db : DB) (req : OrderRequest) (now : ℤ)
    (st : ℚ) (its : List OrderItem) :
    (settle db req now st its).response_credit_earned =
      (earnStep
        (debitStep db.balances db.ledger req.user_id
          (settledCredit db req st (settledDiscount db req st now).amount
            (shippingOf req.delivery_method))).1
        (debitStep db.balances db.ledger req.user_id
          (settledCredit db req st (settledDiscount db req st now).amount
            (shippingOf req.delivery_method))).2
        (settledDiscount db req st now) req.user_id req.referrer_choice st).2.2 := rfl

/-- The persisted ledger is the ledger after the debit and earn steps. -/
theorem settle_ledger (db : DB) (req : OrderRequest) (now : ℤ)
    (st : ℚ) (its : List OrderItem) :
    (settle db req now st its).db.ledger =
      (earnStep
        (debitStep db.balances db.ledger req.user_id
          (settledCredit db req st (settledDiscount db req st now).amount
            (shippingOf req.delivery_method))).1
        (debitStep db.balances db.ledger req.user_id
          (settledCredit db req st (settledDiscount db req st now).amount
            (shippingOf req.delivery_method))).2
        (settledDiscount db req st now) req.user_id req.referrer_choice st).2.1 := rfl

/-- Claim C4: settling an order with a referral code owned by the acting user:
the combined choice yields a single discount of (discount_percent +
commission_percent) percent of subtotal, reports credit_earned 0 and writes
no earned ledger row; the split choice yields the normal discount and an
earned ledger credit of commission_percent of subtotal to the acting user,
also reported as credit_earned. -/
theorem C4_self_referral
    {db : DB} {req : OrderRequest} {now : ℤ} {st : ℚ} {its : List OrderItem}
    {s : String} {d : DiscountCode}
    (hA : req.final_attestation = true) (hNE : req.items ≠ [])
    (hP : priceItems db.products now req.items = .ok (st, its))
    (hc : req.discount_code = some s) (hs : s ≠ "")
    (hf : findValidCode db.discount_codes s now = some d)
    (hmin : d.min_order_amount ≤ st)
    (href : d.referrer_user_id = some req.user_id)
    (hu : req.user_id ≠ 0) :
    createOrder db req now = .ok (settle db req now st its) ∧
    (req.referrer_choice = "combined" →
      (settle db req now st its).order.discount_amount =
        st * ((d.discount_percent + commissionOr20 d.commission_percent) / 100) ∧
      (settle db req now st its).response_credit_earned = 0 ∧
      earnedEntries (settle db req now st its).db.ledger =
        earnedEntries db.ledger) ∧
    (req.referrer_choice = "split" →
      (settle db req now st its).order.discount_amount =
        (if 0 < d.discount_percent then st * (d.discount_percent / 100)
         else d.discount_amount) ∧
      (settle db req now st its).response_credit_earned =
        st * (commissionOr20 d.commission_percent / 100) ∧
      earnedEntries (settle db req now st its).db.ledger =
        earnedEntries db.ledger ++
          [⟨req.user_id, "earned", st * (commissionOr20 d.commission_percent / 100)⟩]) := by
  have hdres : settledDiscount db req st now =
      ⟨settleDiscountAmount d st true req.referrer_choice
         (commissionOr20 d.commission_percent),
       some d.id, some req.user_id, commissionOr20 d.commission_percent, true⟩ := by
    simp only [settledDiscount, resolveDiscount, hc, if_neg hs, hf,
      if_neg (not_lt.mpr hmin), href, truthyRef, if_neg hu, beq_self_eq_true]
  refine ⟨createOrder_ok hA hNE hP, ?_, ?_⟩
  · intro hch
    refine ⟨?_, ?_, ?_⟩
    · rw [settle_discount_amount, hdres]
      simp [settleDiscountAmount, hch]
    · rw [settle_credit_earned, hdres, hch]
      simp [earnStep]
    · rw [settle_ledger, hdres, hch]
      simp only [earnStep]
      simp only [ne_eq, not_true_eq_false, if_false, ite_not]
      simp [earnedEntries_debit]
  · intro hch
    refine ⟨?_, ?_, ?_⟩
    · rw [settle_discount_amount, hdres]
      simp [settleDiscountAmount, hch]
    · rw [settle_credit_earned, hdres, hch]
      simp [earnStep]
    · rw [settle_ledger, hdres, hch]
      simp only [earnStep]
      simp only [ne_eq, not_true_eq_false, if_false, ite_not]
      have hcond : (true && ("split" == "split")) = true := by rfl
      rw [if_pos hcond]
      dsimp only
      rw [earnedEntries_append, earnedEntries_debit]
      simp [earnedEntries, List.filter]

end PeptideApp

namespace PeptideApp

/-- Witness for C4 at the claimed numbers: discount_percent 10, commission 20,
subtotal 100; combined gives discount 30 and credit 0, split gives discount
10 and credit 20. -/
theorem C4_self_referral_witness :
    ((settle exDb exReq4c 0 100 [⟨1, 1, 100, false⟩]).order.discount_amount =
       100 * (((10 : ℚ) + 20) / 100) ∧
     (settle exDb exReq4c 0 100 [⟨1, 1, 100, false⟩]).response_credit_earned = 0) ∧
    ((settle exDb exReq4s 0 100 [⟨1, 1, 100, false⟩]).order.discount_amount =
       (if (0 : ℚ) < 10 then (100 : ℚ) * (10 / 100) else 0) ∧
     (settle exDb exReq4s 0 100 [⟨1, 1, 100, false⟩]).response_credit_earned =
       100 * ((20 : ℚ) / 100)) := by
  obtain ⟨-, hcomb, -⟩ := @C4_self_referral exDb exReq4c 0 100
    [⟨1, 1, 100, false⟩] "REF" codeRef
    rfl (by decide) (by with_unfolding_all rfl) rfl (by decide)
    (by with_unfolding_all rfl) (by norm_num [codeRef]) rfl (by decide)
  obtain ⟨-, -, hsplit⟩ := @C4_self_referral exDb exReq4s 0 100
    [⟨1, 1, 100, false⟩] "REF" codeRef
    rfl (by decide) (by with_unfolding_all rfl) rfl (by decide)
    (by with_unfolding_all rfl) (by norm_num [codeRef]) rfl (by decide)
  obtain ⟨h1, h2, -⟩ := hcomb rfl
  obtain ⟨h3, h4, -⟩ := hsplit rfl
  refine ⟨⟨?_, h2⟩, ⟨?_, ?_⟩⟩
  · rw [h1]; norm_num [codeRef, commissionOr20]
  · rw [h3]; norm_num [codeRef]
  · rw [h4]; norm_num [codeRef, commissionOr20]

end PeptideApp

namespace PeptideApp

/-- The subtotal stored by settle is the priced subtotal. -/
theorem settle_subtotal (db : DB) (req : OrderRequest) (now : ℤ)
    (st : ℚ) (its : List OrderItem) :
    (settle db req now st its).order.subtotal = st := rfl

/-- The shipping cost stored by settle comes from the delivery method. -/
theorem settle_shipping (db : DB) (req : OrderRequest) (now : ℤ)
    (st : ℚ) (its : List OrderItem) :
    (settle db req now st its).order.shipping_cost =
      shippingOf req.delivery_method := rfl

/-- The credit stored by settle is the settledCredit computation. -/
theorem settle_credit_applied (db : DB) (req : OrderRequest) (now : ℤ)
    (st : ℚ) (its : List OrderItem) :
    (settle db req now st its).order.credit_applied =
      settledCredit db req st (settledDiscount db req st now).amount
        (shippingOf req.delivery_method) := rfl

/-- Claim C5 counterexample: subtotal 50, flat discount 100, pickup, available
balance 10; create_order persists credit_applied = min(10, 50 - 100 + 0)
= -50, a negative value, because the source applies no floor at zero. -/
theorem C5_counterexample :
    (createOrder exDb exReq5 0).map (fun r => r.order.credit_applied) =
      .ok (-50) ∧ ((-50 : ℚ) < 0) := by
  refine ⟨by with_unfolding_all rfl, by norm_num⟩

/-- Claim C5 as amended: when credit application is requested with a positive
available balance b, the persisted credit is min(b, subtotal -
discount_amount + shipping_cost) with NO floor at zero (it can be negative
when the discount exceeds subtotal plus shipping); it never exceeds b, and
whenever it is positive the debit leaves the balance non-negative (the
debit ledger row is only written for a positive applied credit). -/
theorem C5_amended_credit
    {db : DB} {req : OrderRequest} {now : ℤ} {st : ℚ} {its : List OrderItem}
    {b : ℚ}
    (hA : req.final_attestation = true) (hNE : req.items ≠ [])
    (hP : priceItems db.products now req.items = .ok (st, its))
    (hac : req.apply_credit = true)
    (hb : db.balances req.user_id = some b) (hb0 : 0 < b) :
    createOrder db req now = .ok (settle db req now st its) ∧
    (settle db req now st its).order.credit_applied =
      min b ((settle db req now st its).order.subtotal -
        (settle db req now st its).order.discount_amount +
        (settle db req now st its).order.shipping_cost) ∧
    (settle db req now st its).order.credit_applied ≤ b ∧
    (0 < (settle db req now st its).order.credit_applied →
      0 ≤ b - (settle db req now st its).order.credit_applied) := by
  have hcred : (settle db req now st its).order.credit_applied =
      min b (st - (settledDiscount db req st now).amount +
        shippingOf req.delivery_method) := by
    rw [settle_credit_applied]
    unfold settledCredit
    rw [hac, hb]
    simp [hb0]
  refine ⟨createOrder_ok hA hNE hP, ?_, ?_, ?_⟩
  · rw [settle_subtotal, settle_discount_amount, settle_shipping, hcred]
  · rw [hcred]; exact min_le_left _ _
  · intro h
    rw [hcred]
    have := min_le_left b (st - (settledDiscount db req st now).amount +
      shippingOf req.delivery_method)
    linarith

/-- Witness for C5 as amended: the spec section 8 scenario, balance 15,
subtotal 40, pickup, applied credit 15. -/
theorem C5_amended_witness :
    (settle exDb exReq5w 0 40 [⟨4, 1, 40, false⟩]).order.credit_applied =
      min 15 ((40 : ℚ) - 0 + 0) ∧
    (settle exDb exReq5w 0 40 [⟨4, 1, 40, false⟩]).order.credit_applied ≤ 15 ∧
    0 ≤ (15 : ℚ) -
      (settle exDb exReq5w 0 40 [⟨4, 1, 40, false⟩]).order.credit_applied := by
  obtain ⟨-, h1, h2, h3⟩ := @C5_amended_credit exDb exReq5w 0 40
    [⟨4, 1, 40, false⟩] 15
    rfl (by decide) (by with_unfolding_all rfl) rfl
    (by with_unfolding_all rfl) (by norm_num)
  have hv : (settle exDb exReq5w 0 40
      [⟨4, 1, 40, false⟩]).order.credit_applied = 15 := by
    with_unfolding_all rfl
  refine ⟨?_, h2, h3 (by rw [hv]; norm_num)⟩
  rw [h1]
  with_unfolding_all rfl

end PeptideApp

namespace PeptideApp

/-- Ledger sums split over append. -/
theorem ledgerSum_append (l1 l2 : List LedgerEntry) (uid : ℕ) :
    ledgerSum (l1 ++ l2) uid = ledgerSum l1 uid + ledgerSum l2 uid := by
  simp [ledgerSum, List.filter_append]

/-- Ledger sum of a single row. -/
theorem ledgerSum_single (u : ℕ) (t : String) (a : ℚ) (uid : ℕ) :
    ledgerSum [⟨u, t, a⟩] uid = if u = uid then a else 0 := by
  by_cases h : u = uid
  · subst h
    simp [ledgerSum, List.filter]
  · have hbeq : (u == uid) = false := beq_eq_false_iff_ne.mpr h
    simp [ledgerSum, List.filter, hbeq, h]

/-- A balance update paired with the matching ledger row in the same
transaction preserves the cached-balance invariant. -/
theorem invP_push {bal : ℕ → Option ℚ} {led : List LedgerEntry}
    (h : invP bal led) (u : ℕ) (t : String) (a : ℚ) :
    invP (updBal bal u a) (led ++ [⟨u, t, a⟩]) := by
  intro uid b hb
  rw [ledgerSum_append, ledgerSum_single]
  unfold updBal at hb
  by_cases huid : uid = u
  · subst huid
    rw [if_pos rfl] at hb
    rw [if_pos rfl]
    cases hbal : bal uid with
    | none => rw [hbal] at hb; cases hb
    | some b0 =>
      rw [hbal] at hb
      injection hb with hb
      rw [← hb, h uid b0 hbal]
  · rw [if_neg huid] at hb
    rw [if_neg (fun he => huid he.symm)]
    rw [h uid b hb]
    ring

/-- The conditional credit debit of create_order preserves the invariant. -/
theorem invP_debit {bal : ℕ → Option ℚ} {led : List LedgerEntry}
    (h : invP bal led) (uid : ℕ) (c : ℚ) :
    invP (debitStep bal led uid c).1 (debitStep bal led uid c).2 := by
  by_cases hc : 0 < c
  · simp only [debitStep, if_pos hc]
    exact invP_push h uid "used" (-c)
  · simp only [debitStep, if_neg hc]
    exact h

/-- The referral earn step of create_order preserves the invariant. -/
theorem invP_earn {bal : ℕ → Option ℚ} {led : List LedgerEntry}
    (h : invP bal led) (dres : DiscountResolution) (uid : ℕ)
    (choice : String) (st : ℚ) :
    invP (earnStep bal led dres uid choice st).1
      (earnStep bal led dres uid choice st).2.1 := by
  unfold earnStep
  rcases hr : dres.referrer with _ | r
  · exact h
  · by_cases h1 : r ≠ uid
    · simp only [if_pos h1]
      exact invP_push h r "earned" _
    · simp only [if_neg h1]
      by_cases h2 : (dres.is_own && (choice == "split")) = true
      · simp only [if_pos h2]
        exact invP_push h r "earned" _
      · simp only [if_neg h2]
        exact h

/-- All-zero database except user 1 with a cached balance of 0. -/
def exDb6 : DB :=
  ⟨fun _ => none, [], fun u => if u = 1 then some 0 else none, [],
   fun _ => none, []⟩

/-- The state admin_update_user leaves behind: cached balance 5, empty
ledger. -/
def exDb6upd : DB :=
  { exDb6 with balances := fun u => if u = 1 then some 5 else exDb6.balances u }

/-- Claim C6 counterexample: the invariant holds, the admin user edit overwrites
the cached balance of user 1 with 5 writing no ledger row, and afterwards
the cached balance no longer equals the ledger sum. -/
theorem C6_counterexample :
    ledgerInv exDb6 ∧ adminUpdateUser exDb6 1 (some 5) = .ok exDb6upd ∧
    ¬ ledgerInv exDb6upd := by
  refine ⟨?_, by with_unfolding_all rfl, ?_⟩
  · intro uid b hb
    by_cases h : uid = 1
    · subst h
      have h0 : exDb6.balances 1 = some 0 := by with_unfolding_all rfl
      rw [h0] at hb
      injection hb with hb
      have hz : ledgerSum exDb6.ledger 1 = 0 := by with_unfolding_all rfl
      rw [hz]
      exact hb.symm
    · have h0 : exDb6.balances uid = none := by simp [exDb6, h]
      rw [h0] at hb
      cases hb
  · intro hcl
    have h5 : exDb6upd.balances 1 = some 5 := by with_unfolding_all rfl
    have hbad := hcl 1 5 h5
    have hz : ledgerSum exDb6upd.ledger 1 = 0 := by with_unfolding_all rfl
    rw [hz] at hbad
    norm_num at hbad

/-- Claim C6 as amended: provided the cached balances equal the ledger sums, the
operations that move money with a ledger row (admin add-credit, return
processing, order settlement with its debit and earn writes) preserve the
equality; the admin user edit (adminUpdateUser) overwrites the cached
balance without a ledger row and is exempt, as the counterexample shows. -/
theorem C6_amended_ledger_invariant {db : DB} (hinv : ledgerInv db) :
    (∀ uid amt db2, adminAddCredit db uid amt = .ok db2 → ledgerInv db2) ∧
    (∀ rid rtype ramount db2,
      adminProcessReturn db rid rtype ramount = .ok db2 → ledgerInv db2) ∧
    (∀ req now res, createOrder db req now = .ok res → ledgerInv res.db) := by
  refine ⟨?_, ?_, ?_⟩
  · intro uid amt db2 h
    unfold adminAddCredit at h
    split at h
    · cases h
    · split at h
      · cases h
      · injection h with h
        rw [← h]
        exact invP_push hinv uid "adjustment" amt
  · intro rid rtype ramount db2 h
    unfold adminProcessReturn at h
    split at h
    · cases h
    · split at h
      · cases h
      · split at h
        · cases h
        · split at h
          · cases h
          · injection h with h
            rw [← h]
            show invP _ _
            by_cases hm : (rtype == "store_credit" || rtype == "partial_credit") = true
            · simp only [if_pos hm]
              exact invP_push hinv _ "credit" ramount
            · simp only [if_neg hm]
              exact hinv
  · intro req now res h
    obtain ⟨st, its, hP, rfl⟩ := createOrder_inv h
    exact invP_earn (invP_debit hinv _ _) _ _ _ _

/-- Ledger-consistent fixture database: balances 10 and 15 backed by one
credit row each. -/
def exDbL : DB :=
  ⟨exProducts, [codeSave10, codeFlat100, codeRef],
   fun u => if u = 7 then some 10 else if u = 8 then some 15 else none,
   [⟨7, "credit", 10⟩, ⟨8, "credit", 15⟩], fun _ => none, []⟩

/-- The ledger invariant holds on the fixture. -/
theorem exDbL_inv : ledgerInv exDbL := by
  intro uid b hb
  by_cases h7 : uid = 7
  · subst h7
    have h0 : exDbL.balances 7 = some 10 := by with_unfolding_all rfl
    rw [h0] at hb
    injection hb with hb
    have hz : ledgerSum exDbL.ledger 7 = 10 := by with_unfolding_all rfl
    rw [hz]
    exact hb.symm
  · by_cases h8 : uid = 8
    · subst h8
      have h0 : exDbL.balances 8 = some 15 := by with_unfolding_all rfl
      rw [h0] at hb
      injection hb with hb
      have hz : ledgerSum exDbL.ledger 8 = 15 := by with_unfolding_all rfl
      rw [hz]
      exact hb.symm
    · have h0 : exDbL.balances uid = none := by simp [exDbL, h7, h8]
      rw [h0] at hb
      cases hb

/-- The state after admin_add_credit of 5 to user 7 on the fixture. -/
def exDbLAdd : DB :=
  { exDbL with
      balances := updBal exDbL.balances 7 5,
      ledger := exDbL.ledger ++ [⟨7, "adjustment", 5⟩] }

/-- Witness for C6 as amended: the invariant survives a concrete admin
credit adjustment and a concrete settled order with a credit debit. -/
theorem C6_amended_witness :
    ledgerInv exDbLAdd ∧
    ledgerInv (settle exDbL exReq5w 0 40 [⟨4, 1, 40, false⟩]).db := by
  refine ⟨?_, ?_⟩
  · exact (C6_amended_ledger_invariant exDbL_inv).1 7 5 exDbLAdd
      (by with_unfolding_all rfl)
  · exact (C6_amended_ledger_invariant exDbL_inv).2.2 exReq5w 0 _
      (createOrder_ok rfl (by decide) (by with_unfolding_all rfl))

end PeptideApp

namespace PeptideApp

/-- Claim C7 as amended: a return submission is accepted exactly when the request
carries a truthy order id, a reason and at least one item, the order belongs
to the caller with status fulfilled, delivered or shipped, and no PENDING
return exists on the order (approved or denied ones do not block, and no
order-age condition is checked); acceptance appends exactly one pending
return row and rejection writes nothing. -/
theorem C7_amended_return_rules :
    (∀ (db : DB) (rq : ReturnReq) (newId : ℕ),
      (submitReturnRequest db rq newId).isOk = returnEligible db rq) ∧
    (∀ (db : DB) (rq : ReturnReq) (newId : ℕ) (db2 : DB),
      submitReturnRequest db rq newId = .ok db2 →
      db2.returns = db.returns ++
        [⟨newId, rq.order_id, rq.user_id, "pending", none, 0⟩]) := by
  constructor
  · intro db rq newId
    by_cases h1 : rq.order_id = 0
    · simp [submitReturnRequest, returnEligible, h1, Except.isOk, Except.toBool]
    · by_cases h2 : rq.reason = ""
      · simp [submitReturnRequest, returnEligible, h1, h2, Except.isOk,
          Except.toBool]
      · have hr : (rq.reason == "") = false := beq_eq_false_iff_ne.mpr h2
        by_cases h3 : rq.items.isEmpty
        · simp [submitReturnRequest, returnEligible, h1, h2, h3, hr,
            Except.isOk, Except.toBool]
        · have hb3 : rq.items.isEmpty = false := Bool.eq_false_iff.mpr h3
          rcases ho : db.orders rq.order_id with _ | o
          · simp [submitReturnRequest, returnEligible, h1, h2, hr, hb3, ho,
              Except.isOk, Except.toBool]
          · by_cases h4 : (o.user_id == rq.user_id &&
              (o.status == "fulfilled" || o.status == "delivered" ||
                o.status == "shipped")) = true
            · by_cases h5 : (db.returns.any (fun r =>
                  r.order_id == rq.order_id && r.status == "pending")) = true
              · simp [submitReturnRequest, returnEligible, h1, h2, hr, hb3, ho,
                  h4, h5, Except.isOk, Except.toBool]
              · simp [submitReturnRequest, returnEligible, h1, h2, hr, hb3, ho,
                  h4, h5, Except.isOk, Except.toBool]
            · simp [submitReturnRequest, returnEligible, h1, h2, hr, hb3, ho,
                h4, Except.isOk, Except.toBool]
  · intro db rq newId db2 h
    unfold submitReturnRequest at h
    split at h
    · cases h
    · split at h
      · cases h
      · split at h
        · cases h
        · split at h
          · split at h
            · cases h
            · injection h with h
              rw [← h]
          · cases h

/-- Delivered order of user 5, created at time 0. -/
def exOrder7 : Order := ⟨5, 100, 0, none, 0, "pickup", 0, 100, "delivered", 0⟩

/-- Already approved (non-denied) return on that order. -/
def exRet7 : Ret := ⟨1, 3, 5, "approved", some "store_credit", 5⟩

/-- Database holding the delivered order 3 and its approved return. -/
def exDb7 : DB :=
  ⟨fun _ => none, [], fun _ => none, [],
   fun oid => if oid = 3 then some exOrder7 else none, [exRet7]⟩

/-- Return request of user 5 against order 3. -/
def exRq7 : ReturnReq := ⟨3, 5, "damaged", [1]⟩

/-- State after the accepted submission. -/
def exDb7acc : DB :=
  { exDb7 with returns := exDb7.returns ++ [⟨2, 3, 5, "pending", none, 0⟩] }

/-- Claim C7 counterexample: the submission is accepted although a non-denied
(approved) return already exists on the order and although, at submission
time 7862400 (second 91 of day terms: 91 * 86400), the order created at 0 is
older than 90 days — the source checks neither condition. -/
theorem C7_counterexample :
    submitReturnRequest exDb7 exRq7 2 = .ok exDb7acc ∧
    exRet7 ∈ exDb7.returns ∧ exRet7.status ≠ "denied" ∧
    (7862400 : ℤ) - exOrder7.created_at > 90 * 86400 := by
  refine ⟨by with_unfolding_all rfl, by decide, by decide, by decide⟩

/-- Same database with no prior return: the submission goes through. -/
def exDb7w : DB := { exDb7 with returns := [] }

/-- State after the accepted witness submission. -/
def exDb7wAcc : DB :=
  { exDb7w with returns := exDb7w.returns ++ [⟨1, 3, 5, "pending", none, 0⟩] }

/-- Witness for C7 as amended at a concrete accepted submission. -/
theorem C7_amended_witness :
    (submitReturnRequest exDb7w exRq7 1).isOk = returnEligible exDb7w exRq7 ∧
    exDb7wAcc.returns = exDb7w.returns ++ [⟨1, 3, 5, "pending", none, 0⟩] :=
  ⟨C7_amended_return_rules.1 exDb7w exRq7 1,
   C7_amended_return_rules.2 exDb7w exRq7 1 exDb7wAcc (by with_unfolding_all rfl)⟩

end PeptideApp

namespace PeptideApp

/-- Whatever resolution type is submitted, the status admin_process_return
writes is never pending. -/
theorem processStatus_ne_pending (rtype : String) :
    (if rtype == "denied" then "denied"
     else if rtype == "store_credit" || rtype == "partial_credit" then "approved"
     else if rtype == "full_refund" then "refund_pending"
     else if rtype == "replacement" then "replacement_pending"
     else "approved") ≠ "pending" := by
  split_ifs <;> decide

/-- Claim C8: a return whose status has left pending can never be processed again
(the call errors and, being rejected before any write, changes nothing); no
successful process or complete-refund call ever produces a pending status on
a return that was not already pending; and complete-refund succeeds only on
a return currently in refund_pending. -/
theorem C8_returns_no_reopen :
    (∀ (db : DB) (rid : ℕ) (rtype : String) (ramount : ℚ) (ret : Ret),
      findRet db.returns rid = some ret → ret.status ≠ "pending" →
      (adminProcessReturn db rid rtype ramount).isOk = false) ∧
    (∀ (db : DB) (rid : ℕ) (rtype : String) (ramount : ℚ) (db2 : DB) (r : Ret),
      adminProcessReturn db rid rtype ramount = .ok db2 →
      r ∈ db2.returns → r.status = "pending" → r ∈ db.returns) ∧
    (∀ (db : DB) (rid : ℕ) (db2 : DB) (r : Ret),
      adminCompleteRefund db rid = .ok db2 →
      r ∈ db2.returns → r.status = "pending" → r ∈ db.returns) ∧
    (∀ (db : DB) (rid : ℕ) (db2 : DB),
      adminCompleteRefund db rid = .ok db2 →
      ∃ ret, findRet db.returns rid = some ret ∧
        ret.status = "refund_pending") := by
  refine ⟨?_, ?_, ?_, ?_⟩
  · intro db rid rtype ramount ret hfind hstat
    simp only [adminProcessReturn, hfind]
    rw [if_pos hstat]
    split_ifs <;> rfl
  · intro db rid rtype ramount db2 r h hmem hpend
    unfold adminProcessReturn at h
    split at h
    · cases h
    · split at h
      · cases h
      · split at h
        · cases h
        · split at h
          · cases h
          · injection h with h
            rw [← h] at hmem
            dsimp only at hmem
            obtain ⟨r0, hr0, hfr⟩ := List.mem_map.mp hmem
            by_cases hid : r0.id = rid
            · rw [if_pos hid] at hfr
              exfalso
              apply processStatus_ne_pending rtype
              rw [← hfr] at hpend
              exact hpend
            · rw [if_neg hid] at hfr
              rw [← hfr]
              exact hr0
  · intro db rid db2 r h hmem hpend
    unfold adminCompleteRefund at h
    split at h
    · cases h
    · split at h
      · cases h
      · injection h with h
        rw [← h] at hmem
        dsimp only at hmem
        obtain ⟨r0, hr0, hfr⟩ := List.mem_map.mp hmem
        by_cases hid : r0.id = rid
        · rw [if_pos hid] at hfr
          rw [← hfr] at hpend
          simp at hpend
        · rw [if_neg hid] at hfr
          rw [← hfr]
          exact hr0
  · intro db rid db2 h
    unfold adminCompleteRefund at h
    split at h
    · cases h
    · split at h
      · cases h
      · rename_i ret hfind hne
        exact ⟨ret, hfind, not_ne_iff.mp hne⟩

/-- Approved return on order 1. -/
def exRet8a : Ret := ⟨1, 1, 5, "approved", some "store_credit", 5⟩

/-- Refund-pending return on order 1. -/
def exRet8b : Ret := ⟨2, 1, 5, "refund_pending", some "full_refund", 0⟩

/-- Pending return on order 2. -/
def exRet8c : Ret := ⟨3, 2, 5, "pending", none, 0⟩

/-- Pending return on order 3, untouched by the witness calls. -/
def exRet8d : Ret := ⟨4, 3, 6, "pending", none, 0⟩

/-- Returns fixture database. -/
def exDb8 : DB :=
  ⟨fun _ => none, [], fun u => if u = 5 then some 0 else none, [],
   fun _ => none, [exRet8a, exRet8b, exRet8c, exRet8d]⟩

/-- State after denying return 3. -/
def exDb8proc : DB :=
  { exDb8 with returns :=
      [exRet8a, exRet8b, ⟨3, 2, 5, "denied", some "denied", 0⟩, exRet8d] }

/-- State after completing the refund of return 2. -/
def exDb8ref : DB :=
  { exDb8 with returns :=
      [exRet8a, ⟨2, 1, 5, "refunded", some "full_refund", 0⟩, exRet8c, exRet8d] }

/-- Witness for C8: processing the approved return 1 fails; denying the
pending return 3 keeps the untouched pending return 4 and completing the
refund of return 2 keeps the untouched pending return 3; and the completed
refund was indeed refund_pending before. -/
theorem C8_returns_witness :
    (adminProcessReturn exDb8 1 "denied" 0).isOk = false ∧
    exRet8d ∈ exDb8.returns ∧
    exRet8c ∈ exDb8.returns ∧
    exRet8b.status = "refund_pending" := by
  refine ⟨?_, ?_, ?_, ?_⟩
  · exact C8_returns_no_reopen.1 exDb8 1 "denied" 0 exRet8a
      (by with_unfolding_all rfl) (by decide)
  · exact C8_returns_no_reopen.2.1 exDb8 3 "denied" 0 exDb8proc exRet8d
      (by with_unfolding_all rfl) (by simp [exDb8proc, exDb8])
      (by with_unfolding_all rfl)
  · exact C8_returns_no_reopen.2.2.1 exDb8 2 exDb8ref exRet8c
      (by with_unfolding_all rfl) (by simp [exDb8ref, exDb8])
      (by with_unfolding_all rfl)
  · obtain ⟨ret, h1, h2⟩ := C8_returns_no_reopen.2.2.2 exDb8 2 exDb8ref
      (by with_unfolding_all rfl)
    have he : findRet exDb8.returns 2 = some exRet8b := by with_unfolding_all rfl
    rw [he] at h1
    injection h1 with h1
    rw [h1]
    exact h2

end PeptideApp

namespace PeptideApp

/-- Claim C9 (code bug): on a concrete accepted order the row is persisted with
the schema default status pending — the INSERT of create_order names no
status column — while the response of the very same call reports
pending_payment; the two strings differ. -/
theorem C9_status_divergence :
    (createOrder exDb exReq1 0).map
      (fun r => (r.order.status, r.response_status)) =
      .ok ("pending", "pending_payment") ∧
    ("pending" : String) ≠ "pending_payment" := by
  refine ⟨by with_unfolding_all rfl, by decide⟩

/-- Claim C10: when the supplied discount code fails validation (not found,
inactive, expired or exhausted — all folded into the lookup — or subtotal
below the minimum), create_order still accepts the order, persists
discount_amount 0 with no discount_code_id, leaves every times_used counter
untouched and reports discount 0 with no error. -/
theorem C10_invalid_code_silent
    {db : DB} {req : OrderRequest} {now : ℤ} {st : ℚ} {its : List OrderItem}
    {s : String}
    (hA : req.final_attestation = true) (hNE : req.items ≠ [])
    (hP : priceItems db.products now req.items = .ok (st, its))
    (hc : req.discount_code = some s) (hs : s ≠ "")
    (hbad : findValidCode db.discount_codes s now = none ∨
      ∃ d, findValidCode db.discount_codes s now = some d ∧
        st < d.min_order_amount) :
    createOrder db req now = .ok (settle db req now st its) ∧
    (settle db req now st its).order.discount_amount = 0 ∧
    (settle db req now st its).order.discount_code_id = none ∧
    (settle db req now st its).db.discount_codes = db.discount_codes ∧
    (settle db req now st its).response_discount = 0 := by
  have hdres : settledDiscount db req st now = noDiscount := by
    simp only [settledDiscount, resolveDiscount, hc, if_neg hs]
    rcases hbad with hb | ⟨d, hb, hlt⟩
    · rw [hb]
    · rw [hb]
      simp only [if_pos hlt]
  refine ⟨createOrder_ok hA hNE hP, ?_, ?_, ?_, ?_⟩
  · rw [settle_discount_amount, hdres]
    with_unfolding_all rfl
  · show (settledDiscount db req st now).code_id = none
    rw [hdres]
    with_unfolding_all rfl
  · show bumpUsage db.discount_codes (settledDiscount db req st now).code_id =
      db.discount_codes
    rw [hdres]
    with_unfolding_all rfl
  · show (settledDiscount db req st now).amount = 0
    rw [hdres]
    with_unfolding_all rfl

/-- Witness for C10: the unknown code NOPE is silently ignored. -/
theorem C10_invalid_code_witness :
    createOrder exDb exReq10 0 =
      .ok (settle exDb exReq10 0 100 [⟨1, 1, 100, false⟩]) ∧
    (settle exDb exReq10 0 100 [⟨1, 1, 100, false⟩]).order.discount_amount = 0 ∧
    (settle exDb exReq10 0 100 [⟨1, 1, 100, false⟩]).order.discount_code_id = none ∧
    (settle exDb exReq10 0 100 [⟨1, 1, 100, false⟩]).db.discount_codes =
      exDb.discount_codes ∧
    (settle exDb exReq10 0 100 [⟨1, 1, 100, false⟩]).response_discount = 0 :=
  C10_invalid_code_silent rfl (by decide) (by with_unfolding_all rfl) rfl
    (by decide) (Or.inl (by with_unfolding_all rfl))

end PeptideApp
